import Mathlib

/-!
Verification development for the belaysdk training scripts
(`scripts/trainModel.py`, `scripts/trainPriorityFeeML.py`,
`scripts/trainSuccessClassifier.py`).

Each script is a linear pipeline: load a JSON array of transaction
records, filter, engineer features (one-hot program flags, median
imputation of `computeUnitsUsed`), split 80/20 with seed 42, fit a
random-forest model, evaluate, and write a model artifact followed by a
JSON metadata file.  The embedding below models the record type, the
feature engineering, the split, and the write sequence of each script.
The tree-ensemble fitting and the metric formulas are delegated to an
external statistical library in the source and are kept opaque here
(`fit` records only the feature order and the training rows, which is
the part of the model that the code of the scripts constrains); metadata files
are modelled by their top-level key list and their `feature_columns`
value, which is what the dict literals of the scripts determine.
-/

/-- One transaction record, with the attributes the three scripts read.
`computeUnitsUsed` may be absent (NaN/null in the JSON), every other
field used by the scripts is assumed present and numeric.  Numbers are
modelled as rationals. -/
structure Record where
  success : Bool
  program : String
  programId : String
  instructionCount : ℚ
  accountCount : ℚ
  dataSize : ℚ
  priorityFee : ℚ
  networkCongestion : ℚ
  computeUnitsUsed : Option ℚ
  slotTime : ℚ
deriving DecidableEq

/-- The Jupiter program identifier hardcoded in all three scripts. -/
def jupiterId : String := "JUP6LkbZbjS1jKKwapdHNy74zcZ3tLUZoi5QNyVTaV4"

/-- The Raydium program identifier hardcoded in all three scripts. -/
def raydiumId : String := "675kPX9MHTjS2zt1qfr1NYHuzeLXfQM9H24wFSUt1Mp8"

/-- One-hot flag `program_jupiter`: `(col == JUP6...).astype(int)`. -/
def oneHotJupiter (p : String) : ℚ := if p = jupiterId then 1 else 0

/-- One-hot flag `program_raydium`: `(col == 675kPX...).astype(int)`. -/
def oneHotRaydium (p : String) : ℚ := if p = raydiumId then 1 else 0

/-- Insert into a sorted list of rationals (ascending). -/
def insertSorted (x : ℚ) : List ℚ → List ℚ
  | [] => [x]
  | y :: ys => if x ≤ y then x :: y :: ys else y :: insertSorted x ys

/-- Insertion sort, ascending. -/
def sortQ : List ℚ → List ℚ
  | [] => []
  | x :: xs => insertSorted x (sortQ xs)

/-- Pandas `Series.median()` over the present (non-NaN) values: `none`
on an empty list (pandas returns NaN), the middle element for odd
length, the mean of the two middle elements for even length. -/
def median (xs : List ℚ) : Option ℚ :=
  let s := sortQ xs
  let n := s.length
  if n = 0 then none
  else if n % 2 = 1 then s.get? (n / 2)
  else
    match s.get? (n / 2 - 1), s.get? (n / 2) with
    | some a, some b => some ((a + b) / 2)
    | _, _ => none

/-- The present `computeUnitsUsed` values of a record list. -/
def cuValues (rs : List Record) : List ℚ :=
  rs.filterMap fun r => r.computeUnitsUsed

/-- Step `fillna` on the `computeUnitsUsed` field: a present value is kept, an
absent value is replaced by `m` (note `fillna(NaN)` keeps NaN, which is
the `m = none` case). -/
def fillCU (m : Option ℚ) (r : Record) : Record :=
  { r with computeUnitsUsed :=
      match r.computeUnitsUsed with
      | some x => some x
      | none => m }

/-- Imputation step of the two imputing scripts: the computeUnitsUsed
column is passed through fillna with its own median, so every absent
value is replaced by the median of the present values of the same
list. -/
def imputeCU (rs : List Record) : List Record :=
  rs.map (fillCU (median (cuValues rs)))

/-- Value of one named feature column for one record, with the program
column (`program` or `programId`, it differs between scripts) supplied
by `progCol`.  Only `computeUnitsUsed` can be absent. -/
def featureValue (progCol : Record → String) (r : Record) : String → Option ℚ
  | "instructionCount" => some r.instructionCount
  | "accountCount" => some r.accountCount
  | "dataSize" => some r.dataSize
  | "priorityFee" => some r.priorityFee
  | "networkCongestion" => some r.networkCongestion
  | "slotTime" => some r.slotTime
  | "computeUnitsUsed" => r.computeUnitsUsed
  | "program_jupiter" => some (oneHotJupiter (progCol r))
  | "program_raydium" => some (oneHotRaydium (progCol r))
  | _ => none

/-- Number of test samples that sklearn `train_test_split` takes for
`test_size=0.2`: `ceil(0.2 * n)`, i.e. `ceil(n / 5)`. -/
def test_size_count (n : ℕ) : ℕ := (n + 4) / 5

/-- Modelled from the spec: sklearn `train_test_split(test_size=0.2,
random_state=42)` permutes the sample indices with a seed-determined
shuffle and takes the first `ceil(0.2*n)` of them as the test set, the
rest as the training set.  The seeded shuffle itself is external
library internals; it enters as the parameter `σ`, assumed to permute
`List.range n`.  Result: `(train indices, test indices)`. -/
def split_indices (n : ℕ) (σ : List ℕ → List ℕ) : List ℕ × List ℕ :=
  let s := σ (List.range n)
  (s.drop (test_size_count n), s.take (test_size_count n))

/-- Select the rows of `xs` at the given indices, in index-list order. -/
def select (xs : List α) (idx : List ℕ) : List α :=
  idx.filterMap fun i => xs.get? i

/-- The input file as each script sees it: absent (FileNotFoundError at
`open`), unparsable (json.JSONDecodeError at `json.load`), or a parsed
record array. -/
inductive InputFile where
  | absent
  | unparsable
  | records (data : List Record)
deriving DecidableEq

/-- Abort causes of a run.  `datasetAbsent`, `datasetUnparsable` and
`emptyDataset` are the `DatasetError` family of the spec (in the source they
surface as uncaught FileNotFoundError, json.JSONDecodeError, and the
KeyError raised by column access on an empty DataFrame).
`insufficientData` is the `exit(1)` after the 50-record check;
`splitInfeasible` and `validationError` are sklearn ValueErrors from
`train_test_split`; `writeFailed` is an IOError while writing the named
output file. -/
inductive PipeError where
  | datasetAbsent
  | datasetUnparsable
  | emptyDataset
  | insufficientData
  | splitInfeasible
  | validationError
  | writeFailed (path : String)
deriving DecidableEq

/-- Process outcome: normal termination or an abort with a diagnostic
and non-zero exit. -/
inductive Outcome where
  | ok
  | error (e : PipeError)
deriving DecidableEq

/-- A fitted model as far as the code of the scripts constrains it: the
ordered feature-column list it was trained on and the training rows.
The ensemble construction itself is external. -/
structure TrainedModel where
  featureOrder : List String
  trainRows : List (List (Option ℚ))
deriving DecidableEq

/-- Call `model.fit(X_train, y_train)` on features assembled in the order of
`cols`: the contract of the fitted model is that it conforms to that order. -/
def fit (cols : List String) (rows : List (List (Option ℚ))) : TrainedModel :=
  ⟨cols, rows⟩

/-- A file written by a run: the binary model blob (`joblib.dump`), or a
JSON metadata file with its top-level key list and its
`feature_columns` value. -/
inductive Artifact where
  | modelFile (path : String) (model : TrainedModel)
  | metadataFile (path : String) (keys : List String) (fcols : List String)
deriving DecidableEq

/-- Path of a written artifact. -/
def Artifact.path : Artifact → String
  | .modelFile p _ => p
  | .metadataFile p _ _ => p

/-- State after a run: the files written, in write order, and the
process outcome. -/
structure RunResult where
  writes : List Artifact
  outcome : Outcome
deriving DecidableEq

namespace TrainModel

/-- Model output path of `scripts/trainModel.py`. -/
def model_path : String := "data/model.pkl"

/-- Metadata sidecar path of `trainModel.py`. -/
def metadata_path : String := "data/model_metadata.json"

/-- The `feature_columns` list of `trainModel.py` (lines 38-46). -/
def feature_columns : List String :=
  ["instructionCount", "accountCount", "dataSize", "priorityFee",
   "networkCongestion", "program_jupiter", "program_raydium"]

/-- Top-level keys of the metadata dict of `trainModel.py`
(lines 117-126), in literal order. -/
def metadata_keys : List String :=
  ["feature_columns", "model_type", "n_estimators", "train_samples",
   "test_samples", "mae", "r2_score", "accuracy_percent"]

/-- Lines 25-26: keep successful transactions whose `computeUnitsUsed`
is present.  No minimum-count check follows in this script. -/
def df_success (data : List Record) : List Record :=
  data.filter fun r => r.success && r.computeUnitsUsed.isSome

/-- One feature row; this script one-hot encodes the `program` column. -/
def featureVector (r : Record) : List (Option ℚ) :=
  feature_columns.map (featureValue Record.program r)

/-- Feature matrix `X = df_success[feature_columns].values` (line 49). -/
def X (data : List Record) : List (List (Option ℚ)) :=
  (df_success data).map featureVector

/-- The fitted model of a run: trained on the feature columns in
declared order, on the rows selected by the shuffled train indices. -/
def trainedModel (data : List Record) (σ : List ℕ → List ℕ) : TrainedModel :=
  fit feature_columns (select (X data) (split_indices (X data).length σ).1)

/-- One run of `trainModel.py`.  `σ` is the seed-42 shuffle of the
sample indices used by `train_test_split`; `wfail` says which output
paths fail to write (IOError).  The script filters, assembles features,
splits (sklearn raises ValueError when fewer than 2 samples remain, as
the train or test side would be empty), fits, then writes the model
blob followed by the metadata JSON. -/
def run (input : InputFile) (σ : List ℕ → List ℕ) (wfail : String → Bool) : RunResult :=
  match input with
  | .absent => ⟨[], .error .datasetAbsent⟩
  | .unparsable => ⟨[], .error .datasetUnparsable⟩
  | .records data =>
    if data.isEmpty then ⟨[], .error .emptyDataset⟩
    else if (X data).length < 2 then ⟨[], .error .splitInfeasible⟩
    else if wfail model_path then ⟨[], .error (.writeFailed model_path)⟩
    else if wfail metadata_path then
      ⟨[.modelFile model_path (trainedModel data σ)], .error (.writeFailed metadata_path)⟩
    else
      ⟨[.modelFile model_path (trainedModel data σ),
        .metadataFile metadata_path metadata_keys feature_columns], .ok⟩

end TrainModel

namespace TrainPriorityFeeML

/-- Model output path of `scripts/trainPriorityFeeML.py`. -/
def model_path : String := "models/priority_fee_model.pkl"

/-- Metadata sidecar path of `trainPriorityFeeML.py`. -/
def metadata_path : String := "models/priority_fee_metadata.json"

/-- The `feature_columns` list of `trainPriorityFeeML.py` (lines 44-51). -/
def feature_columns : List String :=
  ["instructionCount", "accountCount", "computeUnitsUsed", "slotTime",
   "program_jupiter", "program_raydium"]

/-- Top-level keys of the metadata dict of `trainPriorityFeeML.py`
(lines 125-137), in literal order. -/
def metadata_keys : List String :=
  ["model_type", "n_estimators", "feature_columns", "train_samples",
   "test_samples", "mae", "rmse", "r2_score", "accuracy_percent",
   "trained_on_transactions", "total_dataset"]

/-- Lines 24-25: keep successful transactions with a positive
`priorityFee`. -/
def df_success (data : List Record) : List Record :=
  data.filter fun r => r.success && decide (0 < r.priorityFee)

/-- Line 41: impute absent `computeUnitsUsed` with the median over the
filtered set. -/
def imputed (data : List Record) : List Record :=
  imputeCU (df_success data)

/-- One feature row; this script one-hot encodes the `programId`
column. -/
def featureVector (r : Record) : List (Option ℚ) :=
  feature_columns.map (featureValue Record.programId r)

/-- Feature matrix `X = df_success[feature_columns].values` (line 54). -/
def X (data : List Record) : List (List (Option ℚ)) :=
  (imputed data).map featureVector

/-- The fitted model of a run. -/
def trainedModel (data : List Record) (σ : List ℕ → List ℕ) : TrainedModel :=
  fit feature_columns (select (X data) (split_indices (X data).length σ).1)

/-- One run of `trainPriorityFeeML.py`.  This is the only script with
the minimum-data check: `exit(1)` when fewer than 50 records survive
the filters (lines 29-31), placed before feature engineering, training
and all writes.  `os.makedirs`/`joblib.dump` failures are folded into
`wfail model_path`. -/
def run (input : InputFile) (σ : List ℕ → List ℕ) (wfail : String → Bool) : RunResult :=
  match input with
  | .absent => ⟨[], .error .datasetAbsent⟩
  | .unparsable => ⟨[], .error .datasetUnparsable⟩
  | .records data =>
    if data.isEmpty then ⟨[], .error .emptyDataset⟩
    else if (df_success data).length < 50 then ⟨[], .error .insufficientData⟩
    else if wfail model_path then ⟨[], .error (.writeFailed model_path)⟩
    else if wfail metadata_path then
      ⟨[.modelFile model_path (trainedModel data σ)], .error (.writeFailed metadata_path)⟩
    else
      ⟨[.modelFile model_path (trainedModel data σ),
        .metadataFile metadata_path metadata_keys feature_columns], .ok⟩

end TrainPriorityFeeML

namespace TrainSuccessClassifier

/-- Model output path of `scripts/trainSuccessClassifier.py`. -/
def model_path : String := "models/success_classifier.pkl"

/-- Metadata sidecar path of `trainSuccessClassifier.py`. -/
def metadata_path : String := "models/success_classifier_metadata.json"

/-- The `feature_columns` list of `trainSuccessClassifier.py`
(lines 38-46). -/
def feature_columns : List String :=
  ["instructionCount", "accountCount", "computeUnitsUsed", "priorityFee",
   "slotTime", "program_jupiter", "program_raydium"]

/-- Top-level keys of the metadata dict of `trainSuccessClassifier.py`
(lines 129-141), in literal order. -/
def metadata_keys : List String :=
  ["model_type", "n_estimators", "feature_columns", "train_samples",
   "test_samples", "accuracy", "precision", "recall", "f1_score",
   "accuracy_percent", "trained_on_transactions"]

/-- This script applies no filter: it trains on the full dataset
(both classes).  Line 35 imputes absent `computeUnitsUsed` with the
median over the whole dataset. -/
def imputed (data : List Record) : List Record :=
  imputeCU data

/-- One feature row; this script one-hot encodes the `programId`
column. -/
def featureVector (r : Record) : List (Option ℚ) :=
  feature_columns.map (featureValue Record.programId r)

/-- Feature matrix `X = df[feature_columns].values` (line 49). -/
def X (data : List Record) : List (List (Option ℚ)) :=
  (imputed data).map featureVector

/-- The fitted model of a run. -/
def trainedModel (data : List Record) (σ : List ℕ → List ℕ) : TrainedModel :=
  fit feature_columns (select (X data) (split_indices (X data).length σ).1)

/-- Modelled from the spec and the documented sklearn behaviour: the
stratified `train_test_split(stratify=y)` raises ValueError when the
least populated class has a single member.  The failure-class count is
the total count minus the success count. -/
def stratifyInfeasible (data : List Record) : Bool :=
  let c1 := (data.filter fun r => r.success).length
  decide (c1 = 1) || decide (data.length - c1 = 1)

/-- One run of `trainSuccessClassifier.py`.  No filtering; imputation
over the full dataset; stratified 80/20 split (the stratified shuffle
is folded into `σ`); model then metadata writes. -/
def run (input : InputFile) (σ : List ℕ → List ℕ) (wfail : String → Bool) : RunResult :=
  match input with
  | .absent => ⟨[], .error .datasetAbsent⟩
  | .unparsable => ⟨[], .error .datasetUnparsable⟩
  | .records data =>
    if data.isEmpty then ⟨[], .error .emptyDataset⟩
    else if (X data).length < 2 then ⟨[], .error .splitInfeasible⟩
    else if stratifyInfeasible data then ⟨[], .error .validationError⟩
    else if wfail model_path then ⟨[], .error (.writeFailed model_path)⟩
    else if wfail metadata_path then
      ⟨[.modelFile model_path (trainedModel data σ)], .error (.writeFailed metadata_path)⟩
    else
      ⟨[.modelFile model_path (trainedModel data σ),
        .metadataFile metadata_path metadata_keys feature_columns], .ok⟩

end TrainSuccessClassifier

/-- Concrete record passing the filters of trainModel.py. -/
def goodModelRecord : Record :=
  { success := true
    program := "JUP6LkbZbjS1jKKwapdHNy74zcZ3tLUZoi5QNyVTaV4"
    programId := "JUP6LkbZbjS1jKKwapdHNy74zcZ3tLUZoi5QNyVTaV4"
    instructionCount := 3
    accountCount := 4
    dataSize := 100
    priorityFee := 1000
    networkCongestion := 50
    computeUnitsUsed := some 120000
    slotTime := 1 }

/-- Concrete record failing the filters of trainPriorityFeeML.py
(`success = false`). -/
def badFeeRecord : Record :=
  { goodModelRecord with success := false }

/-- Concrete record with an absent `computeUnitsUsed`. -/
def absentCURecord : Record :=
  { goodModelRecord with computeUnitsUsed := none, program := "other", programId := "other" }

/-- Write oracle under which every write succeeds. -/
def noFail : String → Bool := fun _ => false

/-- Write oracle under which only the metadata write of trainModel.py
fails. -/
def failModelMeta : String → Bool := fun p => p == "data/model_metadata.json"

theorem insertSorted_length (x : ℚ) (l : List ℚ) :
    (insertSorted x l).length = l.length + 1 := by
  induction l with
  | nil => rfl
  | cons y ys ih =>
    simp only [insertSorted]
    split
    · simp
    · simp [ih]

theorem sortQ_length (l : List ℚ) : (sortQ l).length = l.length := by
  induction l with
  | nil => rfl
  | cons x xs ih => simp [sortQ, insertSorted_length, ih]

theorem median_isSome {xs : List ℚ} (h : xs ≠ []) : (median xs).isSome = true := by
  have hlen : (sortQ xs).length = xs.length := sortQ_length xs
  have hpos : 0 < (sortQ xs).length := by
    rw [hlen]
    exact List.length_pos.mpr h
  unfold median
  simp only
  rw [if_neg (by omega)]
  by_cases hodd : (sortQ xs).length % 2 = 1
  · rw [if_pos hodd]
    rw [List.get?_eq_get (by omega)]
    rfl
  · rw [if_neg hodd]
    have h2 : 2 ≤ (sortQ xs).length := by omega
    rw [List.get?_eq_get (n := (sortQ xs).length / 2 - 1) (by omega),
        List.get?_eq_get (n := (sortQ xs).length / 2) (by omega)]
    rfl

theorem select_mem {xs : List α} {idx : List ℕ} {a : α} (h : a ∈ select xs idx) :
    a ∈ xs := by
  unfold select at h
  rcases List.mem_filterMap.mp h with ⟨i, _, hget⟩
  exact List.get?_mem hget

theorem select_length {xs : List α} {idx : List ℕ}
    (h : ∀ i ∈ idx, i < xs.length) : (select xs idx).length = idx.length := by
  induction idx with
  | nil => rfl
  | cons i is ih =>
    have hi : i < xs.length := h i (List.mem_cons_self i is)
    have ih2 := ih fun j hj => h j (List.mem_cons_of_mem i hj)
    simp only [select, List.filterMap_cons, List.get?_eq_get hi, List.length_cons] at ih2 ⊢
    rw [ih2]

theorem test_size_count_le (n : ℕ) : test_size_count n ≤ n := by
  unfold test_size_count
  omega

theorem split_indices_fst_mem {n : ℕ} {σ : List ℕ → List ℕ}
    (hσ : (σ (List.range n)).Perm (List.range n)) {i : ℕ}
    (h : i ∈ (split_indices n σ).1) : i < n := by
  have : i ∈ σ (List.range n) := List.drop_subset _ _ h
  exact List.mem_range.mp (hσ.mem_iff.mp this)

theorem split_indices_snd_mem {n : ℕ} {σ : List ℕ → List ℕ}
    (hσ : (σ (List.range n)).Perm (List.range n)) {i : ℕ}
    (h : i ∈ (split_indices n σ).2) : i < n := by
  have : i ∈ σ (List.range n) := List.take_subset _ _ h
  exact List.mem_range.mp (hσ.mem_iff.mp this)

theorem split_indices_length {n : ℕ} {σ : List ℕ → List ℕ}
    (hσ : (σ (List.range n)).Perm (List.range n)) :
    (split_indices n σ).1.length = n - test_size_count n ∧
      (split_indices n σ).2.length = test_size_count n := by
  have hs : (σ (List.range n)).length = n := by
    rw [hσ.length_eq, List.length_range]
  constructor
  · simp [split_indices, hs]
  · simp only [split_indices, List.length_take, hs]
    exact Nat.min_eq_left (test_size_count_le n)

theorem split_indices_disjoint {n : ℕ} {σ : List ℕ → List ℕ}
    (hσ : (σ (List.range n)).Perm (List.range n)) :
    (split_indices n σ).1.Disjoint (split_indices n σ).2 := by
  have hnd : (σ (List.range n)).Nodup :=
    hσ.nodup_iff.mpr (List.nodup_range n)
  exact fun a ha hb => List.disjoint_take_drop hnd le_rfl hb ha

theorem select_split_total {α : Type} (xs : List α) (σ : List ℕ → List ℕ)
    (hσ : (σ (List.range xs.length)).Perm (List.range xs.length)) :
    (select xs (split_indices xs.length σ).1).length
      + (select xs (split_indices xs.length σ).2).length = xs.length := by
  rw [select_length fun i hi => split_indices_fst_mem hσ hi,
      select_length fun i hi => split_indices_snd_mem hσ hi,
      (split_indices_length hσ).1, (split_indices_length hσ).2]
  have := test_size_count_le xs.length
  omega

theorem TrainModel.run_shape_model (input : InputFile) (σ : List ℕ → List ℕ) (wf : String → Bool) :
    (∃ e, run input σ wf = ⟨[], .error e⟩)
    ∨ (∃ data, input = .records data ∧
        run input σ wf = ⟨[.modelFile model_path (trainedModel data σ)],
          .error (.writeFailed metadata_path)⟩)
    ∨ (∃ data, input = .records data ∧
        run input σ wf = ⟨[.modelFile model_path (trainedModel data σ),
          .metadataFile metadata_path metadata_keys feature_columns], .ok⟩) := by
  cases input with
  | absent => exact Or.inl ⟨_, rfl⟩
  | unparsable => exact Or.inl ⟨_, rfl⟩
  | records data =>
    by_cases h1 : data.isEmpty
    · exact Or.inl ⟨.emptyDataset, by simp [run, h1]⟩
    · by_cases h2 : (X data).length < 2
      · exact Or.inl ⟨.splitInfeasible, by simp [run, h1, h2]⟩
      · by_cases h3 : wf model_path
        · exact Or.inl ⟨.writeFailed model_path, by simp [run, h1, h2, h3]⟩
        · by_cases h4 : wf metadata_path
          · exact Or.inr (Or.inl ⟨data, rfl, by simp [run, h1, h2, h3, h4]⟩)
          · exact Or.inr (Or.inr ⟨data, rfl, by simp [run, h1, h2, h3, h4]⟩)

theorem TrainPriorityFeeML.run_shape_fee (input : InputFile) (σ : List ℕ → List ℕ)
    (wf : String → Bool) :
    (∃ e, run input σ wf = ⟨[], .error e⟩)
    ∨ (∃ data, input = .records data ∧
        run input σ wf = ⟨[.modelFile model_path (trainedModel data σ)],
          .error (.writeFailed metadata_path)⟩)
    ∨ (∃ data, input = .records data ∧
        run input σ wf = ⟨[.modelFile model_path (trainedModel data σ),
          .metadataFile metadata_path metadata_keys feature_columns], .ok⟩) := by
  cases input with
  | absent => exact Or.inl ⟨_, rfl⟩
  | unparsable => exact Or.inl ⟨_, rfl⟩
  | records data =>
    by_cases h1 : data.isEmpty
    · exact Or.inl ⟨.emptyDataset, by simp [run, h1]⟩
    · by_cases h2 : (df_success data).length < 50
      · exact Or.inl ⟨.insufficientData, by simp [run, h1, h2]⟩
      · by_cases h3 : wf model_path
        · exact Or.inl ⟨.writeFailed model_path, by simp [run, h1, h2, h3]⟩
        · by_cases h4 : wf metadata_path
          · exact Or.inr (Or.inl ⟨data, rfl, by simp [run, h1, h2, h3, h4]⟩)
          · exact Or.inr (Or.inr ⟨data, rfl, by simp [run, h1, h2, h3, h4]⟩)

theorem TrainSuccessClassifier.run_shape_classifier (input : InputFile) (σ : List ℕ → List ℕ)
    (wf : String → Bool) :
    (∃ e, run input σ wf = ⟨[], .error e⟩)
    ∨ (∃ data, input = .records data ∧
        run input σ wf = ⟨[.modelFile model_path (trainedModel data σ)],
          .error (.writeFailed metadata_path)⟩)
    ∨ (∃ data, input = .records data ∧
        run input σ wf = ⟨[.modelFile model_path (trainedModel data σ),
          .metadataFile metadata_path metadata_keys feature_columns], .ok⟩) := by
  cases input with
  | absent => exact Or.inl ⟨_, rfl⟩
  | unparsable => exact Or.inl ⟨_, rfl⟩
  | records data =>
    by_cases h1 : data.isEmpty
    · exact Or.inl ⟨.emptyDataset, by simp [run, h1]⟩
    · by_cases h2 : (X data).length < 2
      · exact Or.inl ⟨.splitInfeasible, by simp [run, h1, h2]⟩
      · by_cases h5 : stratifyInfeasible data
        · exact Or.inl ⟨.validationError, by simp [run, h1, h2, h5]⟩
        · by_cases h3 : wf model_path
          · exact Or.inl ⟨.writeFailed model_path, by simp [run, h1, h2, h5, h3]⟩
          · by_cases h4 : wf metadata_path
            · exact Or.inr (Or.inl ⟨data, rfl, by simp [run, h1, h2, h5, h3, h4]⟩)
            · exact Or.inr (Or.inr ⟨data, rfl, by simp [run, h1, h2, h5, h3, h4]⟩)

theorem test_ratio {n t : ℕ} (hn : 0 < n) (ht : t = test_size_count n) :
    |((t : ℚ) / n) - 1 / 5| ≤ 1 / n := by
  have h1 : n ≤ 5 * t := by unfold test_size_count at ht; omega
  have h2 : 5 * t ≤ n + 4 := by unfold test_size_count at ht; omega
  have hn0 : (0 : ℚ) < n := by exact_mod_cast hn
  have h1q : (n : ℚ) ≤ 5 * t := by exact_mod_cast h1
  have h2q : 5 * (t : ℚ) ≤ n + 4 := by exact_mod_cast h2
  have hnonneg : (0 : ℚ) ≤ (t : ℚ) / n - 1 / 5 := by
    rw [sub_nonneg, div_le_div_iff₀ (by norm_num) hn0]
    linarith
  rw [abs_of_nonneg hnonneg, sub_le_iff_le_add, div_add_div _ _ (ne_of_gt hn0) (by norm_num),
      div_le_div_iff₀ hn0 (by positivity)]
  nlinarith

theorem jupiter_ne_raydium : jupiterId ≠ raydiumId := by decide

theorem oneHot_pair (p : String) :
    (¬(oneHotJupiter p = 1 ∧ oneHotRaydium p = 1))
      ∧ (p ≠ jupiterId → p ≠ raydiumId →
          oneHotJupiter p = 0 ∧ oneHotRaydium p = 0) := by
  unfold oneHotJupiter oneHotRaydium
  by_cases h : p = jupiterId
  · subst h
    constructor
    · rintro ⟨-, h2⟩
      rw [if_neg jupiter_ne_raydium] at h2
      exact absurd h2 (by norm_num)
    · intro hc
      exact absurd rfl hc
  · by_cases h2 : p = raydiumId
    · subst h2
      constructor
      · rintro ⟨h3, -⟩
        rw [if_neg h] at h3
        exact absurd h3 (by norm_num)
      · intro _ hc
        exact absurd rfl hc
    · constructor
      · rintro ⟨h3, -⟩
        rw [if_neg h] at h3
        exact absurd h3 (by norm_num)
      · intro _ _
        rw [if_neg h, if_neg h2]
        exact ⟨rfl, rfl⟩

/-- Claim C10: for every input record, the one-hot flags
`program_jupiter` and `program_raydium` are mutually exclusive (at most
one of them is 1), and a record whose program identifier (`program` in
trainModel.py, `programId` in the other two scripts) matches neither
hardcoded identifier has both flags equal to 0. -/
theorem C10_theorem (r : Record) :
    (¬(oneHotJupiter r.program = 1 ∧ oneHotRaydium r.program = 1))
      ∧ (r.program ≠ jupiterId → r.program ≠ raydiumId →
          oneHotJupiter r.program = 0 ∧ oneHotRaydium r.program = 0)
      ∧ (¬(oneHotJupiter r.programId = 1 ∧ oneHotRaydium r.programId = 1))
      ∧ (r.programId ≠ jupiterId → r.programId ≠ raydiumId →
          oneHotJupiter r.programId = 0 ∧ oneHotRaydium r.programId = 0) :=
  ⟨(oneHot_pair r.program).1, (oneHot_pair r.program).2,
   (oneHot_pair r.programId).1, (oneHot_pair r.programId).2⟩

/-- Witness for C10 at the concrete record `absentCURecord`, whose
program identifier matches neither hardcoded id. -/
theorem C10_witness :
    (¬(oneHotJupiter absentCURecord.program = 1 ∧ oneHotRaydium absentCURecord.program = 1))
      ∧ (absentCURecord.program ≠ jupiterId → absentCURecord.program ≠ raydiumId →
          oneHotJupiter absentCURecord.program = 0 ∧ oneHotRaydium absentCURecord.program = 0)
      ∧ (¬(oneHotJupiter absentCURecord.programId = 1 ∧ oneHotRaydium absentCURecord.programId = 1))
      ∧ (absentCURecord.programId ≠ jupiterId → absentCURecord.programId ≠ raydiumId →
          oneHotJupiter absentCURecord.programId = 0 ∧ oneHotRaydium absentCURecord.programId = 0) :=
  C10_theorem absentCURecord

/-- Claim C9: an absent input file, an unparsable input file, or an
empty record collection makes each of the three scripts abort with a
diagnostic and non-zero exit (the DatasetError of the spec) with no model
artifact and no metadata file written. -/
theorem C9_theorem (σ : List ℕ → List ℕ) (wf : String → Bool) :
    TrainModel.run .absent σ wf = ⟨[], .error .datasetAbsent⟩
      ∧ TrainModel.run .unparsable σ wf = ⟨[], .error .datasetUnparsable⟩
      ∧ TrainModel.run (.records []) σ wf = ⟨[], .error .emptyDataset⟩
      ∧ TrainPriorityFeeML.run .absent σ wf = ⟨[], .error .datasetAbsent⟩
      ∧ TrainPriorityFeeML.run .unparsable σ wf = ⟨[], .error .datasetUnparsable⟩
      ∧ TrainPriorityFeeML.run (.records []) σ wf = ⟨[], .error .emptyDataset⟩
      ∧ TrainSuccessClassifier.run .absent σ wf = ⟨[], .error .datasetAbsent⟩
      ∧ TrainSuccessClassifier.run .unparsable σ wf = ⟨[], .error .datasetUnparsable⟩
      ∧ TrainSuccessClassifier.run (.records []) σ wf = ⟨[], .error .emptyDataset⟩ :=
  ⟨rfl, rfl, rfl, rfl, rfl, rfl, rfl, rfl, rfl⟩

/-- Claim C5: the 80/20 split used by `train_test_split(test_size=0.2)`
is a partition: selected train and test rows together count the whole
(filtered) dataset, the index sets are disjoint, and the test fraction
is 0.2 within one sample of tolerance, for any seed-determined shuffle
permutation `σ`. -/
theorem C5_theorem {α : Type} (xs : List α) (σ : List ℕ → List ℕ)
    (hσ : (σ (List.range xs.length)).Perm (List.range xs.length)) :
    (select xs (split_indices xs.length σ).1).length
        + (select xs (split_indices xs.length σ).2).length = xs.length
      ∧ (split_indices xs.length σ).1.Disjoint (split_indices xs.length σ).2
      ∧ (0 < xs.length →
          |((select xs (split_indices xs.length σ).2).length : ℚ) / xs.length - 1 / 5|
            ≤ 1 / xs.length) := by
  refine ⟨select_split_total xs σ hσ, split_indices_disjoint hσ, fun hn => ?_⟩
  rw [select_length fun i hi => split_indices_snd_mem hσ hi, (split_indices_length hσ).2]
  exact test_ratio hn rfl

/-- Witness for C5 on a concrete 3-element dataset with the identity
shuffle. -/
theorem C5_witness :
    ((id (List.range ([0, 1, 2] : List ℕ).length)).Perm
        (List.range ([0, 1, 2] : List ℕ).length))
      ∧ ((select ([0, 1, 2] : List ℕ) (split_indices ([0, 1, 2] : List ℕ).length id).1).length
          + (select ([0, 1, 2] : List ℕ) (split_indices ([0, 1, 2] : List ℕ).length id).2).length
          = ([0, 1, 2] : List ℕ).length
        ∧ (split_indices ([0, 1, 2] : List ℕ).length id).1.Disjoint
            (split_indices ([0, 1, 2] : List ℕ).length id).2
        ∧ (0 < ([0, 1, 2] : List ℕ).length →
            |((select ([0, 1, 2] : List ℕ) (split_indices ([0, 1, 2] : List ℕ).length id).2).length : ℚ)
                / ([0, 1, 2] : List ℕ).length - 1 / 5| ≤ 1 / ([0, 1, 2] : List ℕ).length)) :=
  ⟨by decide, C5_theorem [0, 1, 2] id (by decide)⟩

/-- Counterexample to C1 as stated: `trainModel.py` has no
minimum-threshold check.  On an input whose filtered dataset has only
2 records (far below 50) the run completes normally and writes both
the model artifact and the metadata file. -/
theorem C1_counterexample :
    (TrainModel.df_success (List.replicate 2 goodModelRecord)).length = 2
      ∧ (TrainModel.df_success (List.replicate 2 goodModelRecord)).length < 50
      ∧ (TrainModel.run (.records (List.replicate 2 goodModelRecord)) id noFail).outcome = .ok
      ∧ (TrainModel.run (.records (List.replicate 2 goodModelRecord)) id noFail).writes.map
          Artifact.path = [TrainModel.model_path, TrainModel.metadata_path] := by
  refine ⟨rfl, by decide, rfl, rfl⟩

/-- Claim C1 as amended: only `trainPriorityFeeML.py` has the
50-record minimum check; on any non-empty input in which fewer than 50
records survive its filters, that script exits non-zero before
training with the insufficient-data diagnostic and writes nothing. -/
theorem C1_theorem (data : List Record) (σ : List ℕ → List ℕ) (wf : String → Bool)
    (hne : data ≠ []) (hlt : (TrainPriorityFeeML.df_success data).length < 50) :
    TrainPriorityFeeML.run (.records data) σ wf = ⟨[], .error .insufficientData⟩ := by
  have h1 : ¬data.isEmpty = true := by
    simpa [List.isEmpty_iff] using hne
  simp [TrainPriorityFeeML.run, h1, hlt]

/-- Witness for C1 on a concrete one-record input that fails the
filters. -/
theorem C1_witness :
    (([badFeeRecord] : List Record) ≠ []
        ∧ (TrainPriorityFeeML.df_success [badFeeRecord]).length < 50)
      ∧ TrainPriorityFeeML.run (.records [badFeeRecord]) id noFail
          = ⟨[], .error .insufficientData⟩ :=
  ⟨⟨by decide, by decide⟩, C1_theorem [badFeeRecord] id noFail (by decide) (by decide)⟩

theorem atomicity_cases {mp dp : String} {Rr : RunResult}
    (h : (∃ e, Rr = ⟨[], .error e⟩)
      ∨ (∃ m : TrainedModel, Rr = ⟨[.modelFile mp m], .error (.writeFailed dp)⟩)
      ∨ (∃ m ks fc, Rr = ⟨[.modelFile mp m, .metadataFile dp ks fc], .ok⟩)) :
    (Rr.writes.map Artifact.path = [] ∨ Rr.writes.map Artifact.path = [mp]
        ∨ Rr.writes.map Artifact.path = [mp, dp])
      ∧ (Rr.outcome = .ok → Rr.writes.map Artifact.path = [mp, dp])
      ∧ (Rr.writes.map Artifact.path = [mp] → Rr.outcome = .error (.writeFailed dp)) := by
  rcases h with ⟨e, rfl⟩ | ⟨m, rfl⟩ | ⟨m, ks, fc, rfl⟩
  · exact ⟨Or.inl rfl, fun h => by simp at h, fun h => by simp [Artifact.path] at h⟩
  · exact ⟨Or.inr (Or.inl rfl), fun h => by simp at h, fun _ => rfl⟩
  · exact ⟨Or.inr (Or.inr rfl), fun _ => rfl, fun h => by simp [Artifact.path] at h⟩

/-- Claim C2 as amended: each run writes the model blob first and the
metadata file second with no atomicity mechanism, so the written set is
always a prefix of [model, metadata]: an abort before the model write
leaves nothing, a failure of the metadata write leaves the model
artifact without its metadata sidecar, and a normal exit has written
both.  The original all-or-nothing claim fails at the middle case. -/
theorem C2_theorem (input : InputFile) (σ : List ℕ → List ℕ) (wf : String → Bool) :
    (((TrainModel.run input σ wf).writes.map Artifact.path = []
        ∨ (TrainModel.run input σ wf).writes.map Artifact.path = [TrainModel.model_path]
        ∨ (TrainModel.run input σ wf).writes.map Artifact.path
            = [TrainModel.model_path, TrainModel.metadata_path])
      ∧ ((TrainModel.run input σ wf).outcome = .ok →
          (TrainModel.run input σ wf).writes.map Artifact.path
            = [TrainModel.model_path, TrainModel.metadata_path])
      ∧ ((TrainModel.run input σ wf).writes.map Artifact.path = [TrainModel.model_path] →
          (TrainModel.run input σ wf).outcome
            = .error (.writeFailed TrainModel.metadata_path)))
    ∧ (((TrainPriorityFeeML.run input σ wf).writes.map Artifact.path = []
        ∨ (TrainPriorityFeeML.run input σ wf).writes.map Artifact.path
            = [TrainPriorityFeeML.model_path]
        ∨ (TrainPriorityFeeML.run input σ wf).writes.map Artifact.path
            = [TrainPriorityFeeML.model_path, TrainPriorityFeeML.metadata_path])
      ∧ ((TrainPriorityFeeML.run input σ wf).outcome = .ok →
          (TrainPriorityFeeML.run input σ wf).writes.map Artifact.path
            = [TrainPriorityFeeML.model_path, TrainPriorityFeeML.metadata_path])
      ∧ ((TrainPriorityFeeML.run input σ wf).writes.map Artifact.path
            = [TrainPriorityFeeML.model_path] →
          (TrainPriorityFeeML.run input σ wf).outcome
            = .error (.writeFailed TrainPriorityFeeML.metadata_path)))
    ∧ (((TrainSuccessClassifier.run input σ wf).writes.map Artifact.path = []
        ∨ (TrainSuccessClassifier.run input σ wf).writes.map Artifact.path
            = [TrainSuccessClassifier.model_path]
        ∨ (TrainSuccessClassifier.run input σ wf).writes.map Artifact.path
            = [TrainSuccessClassifier.model_path, TrainSuccessClassifier.metadata_path])
      ∧ ((TrainSuccessClassifier.run input σ wf).outcome = .ok →
          (TrainSuccessClassifier.run input σ wf).writes.map Artifact.path
            = [TrainSuccessClassifier.model_path, TrainSuccessClassifier.metadata_path])
      ∧ ((TrainSuccessClassifier.run input σ wf).writes.map Artifact.path
            = [TrainSuccessClassifier.model_path] →
          (TrainSuccessClassifier.run input σ wf).outcome
            = .error (.writeFailed TrainSuccessClassifier.metadata_path))) := by
  refine ⟨atomicity_cases ?_, atomicity_cases ?_, atomicity_cases ?_⟩
  · rcases TrainModel.run_shape_model input σ wf with ⟨e, he⟩ | ⟨d, -, he⟩ | ⟨d, -, he⟩
    · exact Or.inl ⟨e, he⟩
    · exact Or.inr (Or.inl ⟨_, he⟩)
    · exact Or.inr (Or.inr ⟨_, _, _, he⟩)
  · rcases TrainPriorityFeeML.run_shape_fee input σ wf with ⟨e, he⟩ | ⟨d, -, he⟩ | ⟨d, -, he⟩
    · exact Or.inl ⟨e, he⟩
    · exact Or.inr (Or.inl ⟨_, he⟩)
    · exact Or.inr (Or.inr ⟨_, _, _, he⟩)
  · rcases TrainSuccessClassifier.run_shape_classifier input σ wf with ⟨e, he⟩ | ⟨d, -, he⟩ | ⟨d, -, he⟩
    · exact Or.inl ⟨e, he⟩
    · exact Or.inr (Or.inl ⟨_, he⟩)
    · exact Or.inr (Or.inr ⟨_, _, _, he⟩)

/-- Counterexample to C2 as stated: with a write fault at the metadata
path, `trainModel.py` leaves the model artifact on disk without its
metadata sidecar — a partial artifact set. -/
theorem C2_counterexample :
    (TrainModel.run (.records (List.replicate 5 goodModelRecord)) id failModelMeta).writes.map
        Artifact.path = [TrainModel.model_path]
      ∧ (TrainModel.run (.records (List.replicate 5 goodModelRecord)) id failModelMeta).outcome
          = .error (.writeFailed TrainModel.metadata_path) :=
  ⟨rfl, rfl⟩

/-- Witness for C2 on a fault-free run of `trainModel.py`. -/
theorem C2_witness :
    (TrainModel.run (.records (List.replicate 5 goodModelRecord)) id noFail).writes.map
        Artifact.path = [TrainModel.model_path, TrainModel.metadata_path] :=
  (C2_theorem (.records (List.replicate 5 goodModelRecord)) id noFail).1.2.1 (by decide)

theorem metadata_mem_of_shape (mp : String) {dp : String} {keys cols : List String}
    {Rr : RunResult}
    (h : (∃ e, Rr = ⟨[], .error e⟩)
      ∨ (∃ m : TrainedModel, Rr = ⟨[.modelFile mp m], .error (.writeFailed dp)⟩)
      ∨ (∃ m, Rr = ⟨[.modelFile mp m, .metadataFile dp keys cols], .ok⟩))
    {p : String} {ks fc : List String}
    (hmem : Artifact.metadataFile p ks fc ∈ Rr.writes) :
    p = dp ∧ ks = keys ∧ fc = cols := by
  rcases h with ⟨e, rfl⟩ | ⟨m, rfl⟩ | ⟨m, rfl⟩
  · simp at hmem
  · simp at hmem
  · simp at hmem
    exact hmem

/-- Claim C4 as amended: the metadata JSON of each script has a fixed
key set.  That of trainPriorityFeeML.py contains every key the claim
lists (plus `rmse`); that of trainModel.py contains the regression keys
but neither `trained_on_transactions` nor `total_dataset`; that of
trainSuccessClassifier.py contains the classification keys and
`trained_on_transactions` but not `total_dataset`. -/
theorem C4_theorem (input : InputFile) (σ : List ℕ → List ℕ) (wf : String → Bool) :
    (∀ p ks fc, Artifact.metadataFile p ks fc ∈ (TrainModel.run input σ wf).writes →
        p = TrainModel.metadata_path ∧ ks = TrainModel.metadata_keys
          ∧ fc = TrainModel.feature_columns)
      ∧ (∀ p ks fc,
          Artifact.metadataFile p ks fc ∈ (TrainPriorityFeeML.run input σ wf).writes →
            p = TrainPriorityFeeML.metadata_path ∧ ks = TrainPriorityFeeML.metadata_keys
              ∧ fc = TrainPriorityFeeML.feature_columns)
      ∧ (∀ p ks fc,
          Artifact.metadataFile p ks fc ∈ (TrainSuccessClassifier.run input σ wf).writes →
            p = TrainSuccessClassifier.metadata_path
              ∧ ks = TrainSuccessClassifier.metadata_keys
              ∧ fc = TrainSuccessClassifier.feature_columns)
      ∧ (∀ k ∈ ["model_type", "n_estimators", "feature_columns", "train_samples",
            "test_samples", "mae", "r2_score", "accuracy_percent",
            "trained_on_transactions", "total_dataset"],
          k ∈ TrainPriorityFeeML.metadata_keys)
      ∧ (∀ k ∈ ["model_type", "n_estimators", "feature_columns", "train_samples",
            "test_samples", "mae", "r2_score", "accuracy_percent"],
          k ∈ TrainModel.metadata_keys)
      ∧ "trained_on_transactions" ∉ TrainModel.metadata_keys
      ∧ "total_dataset" ∉ TrainModel.metadata_keys
      ∧ (∀ k ∈ ["model_type", "n_estimators", "feature_columns", "train_samples",
            "test_samples", "accuracy", "precision", "recall", "f1_score",
            "trained_on_transactions"],
          k ∈ TrainSuccessClassifier.metadata_keys)
      ∧ "total_dataset" ∉ TrainSuccessClassifier.metadata_keys := by
  refine ⟨fun p ks fc hmem => ?_, fun p ks fc hmem => ?_, fun p ks fc hmem => ?_,
    by decide, by decide, by decide, by decide, by decide, by decide⟩
  · refine metadata_mem_of_shape TrainModel.model_path ?_ hmem
    rcases TrainModel.run_shape_model input σ wf with ⟨e, he⟩ | ⟨d, -, he⟩ | ⟨d, -, he⟩
    · exact Or.inl ⟨e, he⟩
    · exact Or.inr (Or.inl ⟨_, he⟩)
    · exact Or.inr (Or.inr ⟨_, he⟩)
  · refine metadata_mem_of_shape TrainPriorityFeeML.model_path ?_ hmem
    rcases TrainPriorityFeeML.run_shape_fee input σ wf with ⟨e, he⟩ | ⟨d, -, he⟩ | ⟨d, -, he⟩
    · exact Or.inl ⟨e, he⟩
    · exact Or.inr (Or.inl ⟨_, he⟩)
    · exact Or.inr (Or.inr ⟨_, he⟩)
  · refine metadata_mem_of_shape TrainSuccessClassifier.model_path ?_ hmem
    rcases TrainSuccessClassifier.run_shape_classifier input σ wf with ⟨e, he⟩ | ⟨d, -, he⟩ | ⟨d, -, he⟩
    · exact Or.inl ⟨e, he⟩
    · exact Or.inr (Or.inl ⟨_, he⟩)
    · exact Or.inr (Or.inr ⟨_, he⟩)

/-- Counterexample to C4 as stated: on a fault-free successful run,
`trainModel.py` writes a metadata file whose key set contains neither
`trained_on_transactions` nor `total_dataset`. -/
theorem C4_counterexample :
    (TrainModel.run (.records (List.replicate 3 goodModelRecord)) id noFail).outcome = .ok
      ∧ Artifact.metadataFile TrainModel.metadata_path TrainModel.metadata_keys
          TrainModel.feature_columns
          ∈ (TrainModel.run (.records (List.replicate 3 goodModelRecord)) id noFail).writes
      ∧ "total_dataset" ∉ TrainModel.metadata_keys
      ∧ "trained_on_transactions" ∉ TrainModel.metadata_keys := by
  refine ⟨rfl, by decide, by decide, by decide⟩

/-- Witness for C4: the metadata file written by a concrete successful
run of `trainModel.py` carries exactly the fixed path, key list and
feature-column list. -/
theorem C4_witness :
    TrainModel.metadata_path = TrainModel.metadata_path
      ∧ TrainModel.metadata_keys = TrainModel.metadata_keys
      ∧ TrainModel.feature_columns = TrainModel.feature_columns :=
  (C4_theorem (.records (List.replicate 4 goodModelRecord)) id noFail).1
    TrainModel.metadata_path TrainModel.metadata_keys TrainModel.feature_columns (by decide)

theorem TrainModel.rows_length_model {d : List Record} {σ : List ℕ → List ℕ}
    {row : List (Option ℚ)} (h : row ∈ (trainedModel d σ).trainRows) :
    row.length = feature_columns.length := by
  have hx : row ∈ X d := select_mem h
  rcases List.mem_map.mp hx with ⟨r, -, rfl⟩
  simp [featureVector]

theorem TrainPriorityFeeML.rows_length_fee {d : List Record} {σ : List ℕ → List ℕ}
    {row : List (Option ℚ)} (h : row ∈ (trainedModel d σ).trainRows) :
    row.length = feature_columns.length := by
  have hx : row ∈ X d := select_mem h
  rcases List.mem_map.mp hx with ⟨r, -, rfl⟩
  simp [featureVector]

theorem TrainSuccessClassifier.rows_length_classifier {d : List Record} {σ : List ℕ → List ℕ}
    {row : List (Option ℚ)} (h : row ∈ (trainedModel d σ).trainRows) :
    row.length = feature_columns.length := by
  have hx : row ∈ X d := select_mem h
  rcases List.mem_map.mp hx with ⟨r, -, rfl⟩
  simp [featureVector]

/-- Claim C6: in every script, whenever a run writes its model blob and
its metadata file, the model was fitted on feature rows assembled in
the order of the per-script `feature_columns` list, the metadata entry
`feature_columns` is that same list, and every training row has
exactly that many entries — the three column orders coincide. -/
theorem C6_theorem (input : InputFile) (σ : List ℕ → List ℕ) (wf : String → Bool) :
    (∀ p m q ks fc,
        (TrainModel.run input σ wf).writes
            = [.modelFile p m, .metadataFile q ks fc] →
          m.featureOrder = TrainModel.feature_columns ∧ fc = TrainModel.feature_columns
            ∧ ∀ row ∈ m.trainRows, row.length = TrainModel.feature_columns.length)
      ∧ (∀ p m q ks fc,
          (TrainPriorityFeeML.run input σ wf).writes
              = [.modelFile p m, .metadataFile q ks fc] →
            m.featureOrder = TrainPriorityFeeML.feature_columns
              ∧ fc = TrainPriorityFeeML.feature_columns
              ∧ ∀ row ∈ m.trainRows, row.length = TrainPriorityFeeML.feature_columns.length)
      ∧ (∀ p m q ks fc,
          (TrainSuccessClassifier.run input σ wf).writes
              = [.modelFile p m, .metadataFile q ks fc] →
            m.featureOrder = TrainSuccessClassifier.feature_columns
              ∧ fc = TrainSuccessClassifier.feature_columns
              ∧ ∀ row ∈ m.trainRows,
                  row.length = TrainSuccessClassifier.feature_columns.length) := by
  refine ⟨fun p m q ks fc h => ?_, fun p m q ks fc h => ?_, fun p m q ks fc h => ?_⟩
  · rcases TrainModel.run_shape_model input σ wf with ⟨e, he⟩ | ⟨d, -, he⟩ | ⟨d, -, he⟩
    · rw [he] at h
      simp at h
    · rw [he] at h
      simp at h
    · rw [he] at h
      simp only [List.cons.injEq, Artifact.modelFile.injEq, Artifact.metadataFile.injEq,
        and_true] at h
      rcases h with ⟨⟨-, hm⟩, -, -, hfc⟩
      subst hm
      subst hfc
      exact ⟨rfl, rfl, fun row hrow => TrainModel.rows_length_model hrow⟩
  · rcases TrainPriorityFeeML.run_shape_fee input σ wf with ⟨e, he⟩ | ⟨d, -, he⟩ | ⟨d, -, he⟩
    · rw [he] at h
      simp at h
    · rw [he] at h
      simp at h
    · rw [he] at h
      simp only [List.cons.injEq, Artifact.modelFile.injEq, Artifact.metadataFile.injEq,
        and_true] at h
      rcases h with ⟨⟨-, hm⟩, -, -, hfc⟩
      subst hm
      subst hfc
      exact ⟨rfl, rfl, fun row hrow => TrainPriorityFeeML.rows_length_fee hrow⟩
  · rcases TrainSuccessClassifier.run_shape_classifier input σ wf with ⟨e, he⟩ | ⟨d, -, he⟩ | ⟨d, -, he⟩
    · rw [he] at h
      simp at h
    · rw [he] at h
      simp at h
    · rw [he] at h
      simp only [List.cons.injEq, Artifact.modelFile.injEq, Artifact.metadataFile.injEq,
        and_true] at h
      rcases h with ⟨⟨-, hm⟩, -, -, hfc⟩
      subst hm
      subst hfc
      exact ⟨rfl, rfl, fun row hrow => TrainSuccessClassifier.rows_length_classifier hrow⟩

/-- Witness for C6 on a concrete successful run of `trainModel.py`. -/
theorem C6_witness :
    (TrainModel.trainedModel (List.replicate 2 goodModelRecord) id).featureOrder
        = TrainModel.feature_columns
      ∧ TrainModel.feature_columns = TrainModel.feature_columns
      ∧ ∀ row ∈ (TrainModel.trainedModel (List.replicate 2 goodModelRecord) id).trainRows,
          row.length = TrainModel.feature_columns.length :=
  (C6_theorem (.records (List.replicate 2 goodModelRecord)) id noFail).1
    TrainModel.model_path (TrainModel.trainedModel (List.replicate 2 goodModelRecord) id)
    TrainModel.metadata_path TrainModel.metadata_keys TrainModel.feature_columns (by decide)

theorem imputeCU_isSome {rs : List Record} (hm : cuValues rs ≠ []) :
    ∀ r ∈ imputeCU rs, r.computeUnitsUsed.isSome = true := by
  intro r hr
  rcases List.mem_map.mp hr with ⟨r0, -, rfl⟩
  have hmed := median_isSome hm
  simp only [fillCU]
  cases h0 : r0.computeUnitsUsed with
  | some x => simp
  | none => simpa using hmed

theorem featureVector_isSome_TPF {r : Record} (h : r.computeUnitsUsed.isSome = true) :
    ∀ v ∈ TrainPriorityFeeML.featureVector r, v.isSome = true := by
  intro v hv
  simp only [TrainPriorityFeeML.featureVector, TrainPriorityFeeML.feature_columns,
    List.map_cons, List.map_nil, List.mem_cons, List.not_mem_nil, or_false] at hv
  rcases hv with h1 | h1 | h1 | h1 | h1 | h1 <;> subst h1 <;>
    first
      | rfl
      | exact h

theorem featureVector_isSome_TSC {r : Record} (h : r.computeUnitsUsed.isSome = true) :
    ∀ v ∈ TrainSuccessClassifier.featureVector r, v.isSome = true := by
  intro v hv
  simp only [TrainSuccessClassifier.featureVector, TrainSuccessClassifier.feature_columns,
    List.map_cons, List.map_nil, List.mem_cons, List.not_mem_nil, or_false] at hv
  rcases hv with h1 | h1 | h1 | h1 | h1 | h1 | h1 <;> subst h1 <;>
    first
      | rfl
      | exact h

/-- Claim C3 as amended: in the two scripts that impute (the priority
pipeline over its filtered set, the classifier over the whole dataset),
the `computeUnitsUsed` of each record is mapped through `fillna` with the
median of the present values of that same sample set; provided at least
one value of the column is present in that set, no output FeatureVector
contains an absent value.  (When every value is absent the median is
NaN and `fillna` leaves the column absent — see the counterexample.) -/
theorem C3_theorem (data : List Record)
    (h1 : cuValues (TrainPriorityFeeML.df_success data) ≠ [])
    (h2 : cuValues data ≠ []) :
    (∀ i, (TrainPriorityFeeML.imputed data).get? i
        = ((TrainPriorityFeeML.df_success data).get? i).map
            (fillCU (median (cuValues (TrainPriorityFeeML.df_success data)))))
      ∧ (∀ r ∈ TrainPriorityFeeML.imputed data, r.computeUnitsUsed.isSome = true)
      ∧ (∀ row ∈ TrainPriorityFeeML.X data, ∀ v ∈ row, v.isSome = true)
      ∧ (∀ i, (TrainSuccessClassifier.imputed data).get? i
          = (data.get? i).map (fillCU (median (cuValues data))))
      ∧ (∀ r ∈ TrainSuccessClassifier.imputed data, r.computeUnitsUsed.isSome = true)
      ∧ (∀ row ∈ TrainSuccessClassifier.X data, ∀ v ∈ row, v.isSome = true) := by
  refine ⟨fun i => ?_, imputeCU_isSome h1, fun row hrow => ?_, fun i => ?_,
    imputeCU_isSome h2, fun row hrow => ?_⟩
  · simp [TrainPriorityFeeML.imputed, imputeCU, List.get?_map]
  · rcases List.mem_map.mp hrow with ⟨r, hr, rfl⟩
    exact featureVector_isSome_TPF (imputeCU_isSome h1 r hr)
  · simp [TrainSuccessClassifier.imputed, imputeCU, List.get?_map]
  · rcases List.mem_map.mp hrow with ⟨r, hr, rfl⟩
    exact featureVector_isSome_TSC (imputeCU_isSome h2 r hr)

/-- Counterexample to C3 as stated: when every `computeUnitsUsed` value
of the sample set is absent, the median is NaN and `fillna` replaces
nothing; the output FeatureVector of the classifier pipeline still
contains an absent value in the imputed column. -/
theorem C3_counterexample :
    TrainSuccessClassifier.imputed [absentCURecord] = [absentCURecord]
      ∧ TrainSuccessClassifier.X [absentCURecord]
          = [[some 3, some 4, none, some 1000, some 1, some 0, some 0]]
      ∧ none ∈ (TrainSuccessClassifier.X [absentCURecord]).headD [] := by
  refine ⟨by decide, by decide, by decide⟩

/-- Witness for C3 on a concrete one-record dataset with a present
`computeUnitsUsed` value. -/
theorem C3_witness :
    (cuValues (TrainPriorityFeeML.df_success [goodModelRecord]) ≠ []
        ∧ cuValues [goodModelRecord] ≠ [])
      ∧ ((∀ r ∈ TrainPriorityFeeML.imputed [goodModelRecord],
            r.computeUnitsUsed.isSome = true)
        ∧ (∀ row ∈ TrainSuccessClassifier.X [goodModelRecord], ∀ v ∈ row,
            v.isSome = true)) :=
  ⟨⟨by decide, by decide⟩,
    (C3_theorem [goodModelRecord] (by decide) (by decide)).2.1,
    (C3_theorem [goodModelRecord] (by decide) (by decide)).2.2.2.2.2⟩

/-- Claim C7: the filters run before imputation and before the split,
never after.  Every record entering imputation and the split in the
priority pipeline already satisfies its filter predicates (success and
positive fee), likewise for trainModel.py (success and present CU); the
imputation stage keeps the record count unchanged, its median is taken
over the already-filtered set, and the split partitions exactly the
post-filter rows — no stage after the filter drops a record. -/
theorem C7_theorem (data : List Record) (σ : List ℕ → List ℕ)
    (hσ : ∀ n, (σ (List.range n)).Perm (List.range n)) :
    TrainPriorityFeeML.imputed data = imputeCU (TrainPriorityFeeML.df_success data)
      ∧ (∀ r ∈ TrainPriorityFeeML.imputed data, r.success = true ∧ 0 < r.priorityFee)
      ∧ (TrainPriorityFeeML.imputed data).length = (TrainPriorityFeeML.df_success data).length
      ∧ (select (TrainPriorityFeeML.X data)
            (split_indices (TrainPriorityFeeML.X data).length σ).1).length
          + (select (TrainPriorityFeeML.X data)
              (split_indices (TrainPriorityFeeML.X data).length σ).2).length
          = (TrainPriorityFeeML.df_success data).length
      ∧ (∀ r ∈ TrainModel.df_success data, r.success = true ∧ r.computeUnitsUsed.isSome = true)
      ∧ (select (TrainModel.X data) (split_indices (TrainModel.X data).length σ).1).length
          + (select (TrainModel.X data) (split_indices (TrainModel.X data).length σ).2).length
          = (TrainModel.df_success data).length
      ∧ (TrainSuccessClassifier.imputed data).length = data.length := by
  refine ⟨rfl, fun r hr => ?_, ?_, ?_, fun r hr => ?_, ?_, ?_⟩
  · rcases List.mem_map.mp hr with ⟨r0, hr0, rfl⟩
    rcases List.mem_filter.mp hr0 with ⟨-, hp⟩
    rcases (Bool.and_eq_true _ _).mp hp with ⟨hs, hf⟩
    exact ⟨hs, of_decide_eq_true hf⟩
  · simp [TrainPriorityFeeML.imputed, imputeCU]
  · rw [select_split_total (TrainPriorityFeeML.X data) σ (hσ _)]
    simp [TrainPriorityFeeML.X, TrainPriorityFeeML.imputed, imputeCU]
  · rcases List.mem_filter.mp hr with ⟨-, hp⟩
    exact (Bool.and_eq_true _ _).mp hp
  · rw [select_split_total (TrainModel.X data) σ (hσ _)]
    simp [TrainModel.X]
  · simp [TrainSuccessClassifier.imputed, imputeCU]

/-- Witness for C7 on a concrete one-record dataset with the identity
shuffle. -/
theorem C7_witness :
    TrainPriorityFeeML.imputed [goodModelRecord]
        = imputeCU (TrainPriorityFeeML.df_success [goodModelRecord])
      ∧ (∀ r ∈ TrainPriorityFeeML.imputed [goodModelRecord],
          r.success = true ∧ 0 < r.priorityFee)
      ∧ (TrainPriorityFeeML.imputed [goodModelRecord]).length
          = (TrainPriorityFeeML.df_success [goodModelRecord]).length
      ∧ (select (TrainPriorityFeeML.X [goodModelRecord])
            (split_indices (TrainPriorityFeeML.X [goodModelRecord]).length id).1).length
          + (select (TrainPriorityFeeML.X [goodModelRecord])
              (split_indices (TrainPriorityFeeML.X [goodModelRecord]).length id).2).length
          = (TrainPriorityFeeML.df_success [goodModelRecord]).length
      ∧ (∀ r ∈ TrainModel.df_success [goodModelRecord],
          r.success = true ∧ r.computeUnitsUsed.isSome = true)
      ∧ (select (TrainModel.X [goodModelRecord])
            (split_indices (TrainModel.X [goodModelRecord]).length id).1).length
          + (select (TrainModel.X [goodModelRecord])
              (split_indices (TrainModel.X [goodModelRecord]).length id).2).length
          = (TrainModel.df_success [goodModelRecord]).length
      ∧ (TrainSuccessClassifier.imputed [goodModelRecord]).length
          = ([goodModelRecord] : List Record).length :=
  C7_theorem [goodModelRecord] id (fun _ => List.Perm.refl _)
